import Mathlib

/-!
Shallow embedding of the Ecommerce-AI-Agent backend (Express + Zod + SQLite
chat service) and proofs about its request-handling pipeline.

Sources embedded:
- `src/backend/validation.ts` — Zod schemas `ChatMessageRequestSchema`,
  `SessionIdParamSchema` and the `validateRequest` helper;
- `src/backend/index.ts` — the `POST /chat/message` and
  `GET /chat/history/:sessionId` handlers, and `LLMService.generateReply`
  with its error classification;
- the `DatabaseService` (SQLite) layer: `createConversation`,
  `createMessage`, `conversationExists`, `getMessages`,
  `getConversationHistory`.

Modelling conventions:
- JS strings are Lean `String`s; `s.length` (UTF-16 units in JS) is modelled
  as `jsLength` (code points); all concrete inputs used below are ASCII, where
  the two coincide.
- `Date.now()` timestamps and generated UUIDs are nondeterministic inputs;
  they are passed explicitly (`TurnEnv`).
- The SQLite message table is a list of rows in insertion (rowid) order.
  `ORDER BY timestamp ASC` over the `(conversationId, timestamp)` index is a
  stable ascending sort by timestamp (ties in rowid order);
  `ORDER BY timestamp DESC` is the exact reverse of that order (backwards
  index scan), which is how `getConversationHistory` is modelled: reverse,
  take `limit`, reverse again — exactly the "fetch newest descending then
  reverse" of the source.
- The external Gemini call is an opaque effect; its result for the one call a
  turn makes is the `ProviderOutcome` input.  `result.text` being `undefined`
  behaves like the empty string (both are falsy and trim to empty).
-/

deriving instance DecidableEq for Except

/-- JS-style whitespace test used by `String.prototype.trim` (restricted to
the ASCII whitespace characters; all inputs considered here are ASCII). -/
def jsWhitespace (c : Char) : Bool :=
  c == ' ' || c == '\t' || c == '\n' || c == '\r' || c == '\x0b' || c == '\x0c'

/-- JS `String.prototype.trim`: drop leading and trailing whitespace. -/
def jsTrim (s : String) : String :=
  ⟨((s.toList.dropWhile jsWhitespace).reverse.dropWhile jsWhitespace).reverse⟩

/-- JS `s.length`, modelled as the number of characters. -/
def jsLength (s : String) : Nat :=
  s.toList.length

/-- JS `s.includes(pat)`: substring test. -/
def containsSub (s pat : String) : Bool :=
  s.toList.tails.any (fun t => pat.toList.isPrefixOf t)

/-- Hexadecimal digit, as in the Zod UUID regular expression. -/
def isHexDigit (c : Char) : Bool :=
  (('0' ≤ c) && (c ≤ '9')) || (('a' ≤ c) && (c ≤ 'f')) || (('A' ≤ c) && (c ≤ 'F'))

/-- UUID version nibble accepted by Zod: `[1-8]`. -/
def isUuidVersionChar (c : Char) : Bool :=
  ('1' ≤ c) && (c ≤ '8')

/-- UUID variant nibble accepted by Zod: `[89abAB]`. -/
def isUuidVariantChar (c : Char) : Bool :=
  c == '8' || c == '9' || c == 'a' || c == 'b' || c == 'A' || c == 'B'

/-- Character-position check for the 8-4-4-4-12 UUID shape of the Zod
`uuid` format (dashes at positions 8, 13, 18, 23; version at 14; variant at
19; hex everywhere else). -/
def uuidShapeOk (cs : List Char) : Bool :=
  cs.length == 36 &&
  (List.range 36).all (fun i =>
    let c := cs.getD i ' '
    if i == 8 || i == 13 || i == 18 || i == 23 then c == '-'
    else if i == 14 then isUuidVersionChar c
    else if i == 19 then isUuidVariantChar c
    else isHexDigit c)

/-- Zod `z.string().uuid(...)` syntactic check (RFC-4122 shape, with the nil
UUID special-cased, as in the Zod regular expression). -/
def isValidUUID (s : String) : Bool :=
  s == "00000000-0000-0000-0000-000000000000" || uuidShapeOk s.toList

/-! ### Validation (src/backend/validation.ts) -/

/-- A JSON field of an untyped request payload, as far as the schemas here
distinguish: absent, present but not a string, or a string. -/
inductive JsonField where
  | absent
  | nonString
  | str (s : String)
deriving DecidableEq, Repr

/-- Parsed `ChatMessageRequestSchema` output: `message` (already trimmed by
the schema) and the optional `sessionId`. -/
structure ChatMessageRequest where
  message : String
  sessionId : Option String
deriving DecidableEq, Repr

/-- Field `message` of `ChatMessageRequestSchema`:
`z.string().min(1, ...).max(2000, ...).trim().refine(len > 0, ...)`.
Zod runs the checks in chain order, so `min`/`max` see the raw string and
`trim` rewrites the value before the refinement.  The result is the first
violated rule as a message (`validateRequest` returns `issues[0].message`). -/
def parseMessageField : JsonField → Except String String
  | .absent => .error "Message must be a string"
  | .nonString => .error "Message must be a string"
  | .str s =>
    if jsLength s < 1 then .error "Message cannot be empty"
    else if jsLength s > 2000 then
      .error "Message is too long. Please keep it under 2000 characters."
    else if 0 < jsLength (jsTrim s) then .ok (jsTrim s)
    else .error "Message cannot be empty after trimming whitespace"

/-- Field `sessionId` of `ChatMessageRequestSchema`:
`z.string().uuid("Invalid session ID format").optional()`. -/
def parseSessionIdField : JsonField → Except String (Option String)
  | .absent => .ok none
  | .nonString => .error "Invalid input: expected string"
  | .str s =>
    if isValidUUID s then .ok (some s) else .error "Invalid session ID format"

/-- `validateRequest ChatMessageRequestSchema body`: parse both fields; the
error reported is the first issue in key order (`message` before
`sessionId`). -/
def parseChatBody (msg sid : JsonField) : Except String ChatMessageRequest :=
  match parseMessageField msg with
  | .error e => .error e
  | .ok m =>
    match parseSessionIdField sid with
    | .error e => .error e
    | .ok s => .ok ⟨m, s⟩

/-- `validateRequest SessionIdParamSchema` on the path parameter (Express
path parameters are always strings). -/
def parseSessionIdParam (s : String) : Except String String :=
  if isValidUUID s then .ok s else .error "Invalid session ID format"

/-! ### Data model and DatabaseService (src/backend database layer) -/

/-- Column `sender` of the messages table: CHECK constrained to user/ai. -/
inductive Sender where
  | user
  | ai
deriving DecidableEq, Repr

/-- A row of the `messages` table. -/
structure Message where
  id : String
  conversationId : String
  sender : Sender
  text : String
  timestamp : Nat
deriving DecidableEq, Repr

/-- A row of the `conversations` table. -/
structure Conversation where
  id : String
  createdAt : Nat
deriving DecidableEq, Repr

/-- Database state: both tables, each as its rows in insertion order. -/
structure DBState where
  conversations : List Conversation
  messages : List Message
deriving DecidableEq, Repr

/-- The empty database (fresh `chat.db`). -/
def dbEmpty : DBState := ⟨[], []⟩

/-- Method `createConversation(id)`: `INSERT INTO conversations`; `createdAt` is
the caller-side `Date.now()`. -/
def createConversation (db : DBState) (id : String) (now : Nat) : DBState :=
  ⟨db.conversations ++ [⟨id, now⟩], db.messages⟩

/-- Method `conversationExists(id)`: `SELECT COUNT(*) ... WHERE id = ?` compared
with 0. -/
def conversationExists (db : DBState) (id : String) : Bool :=
  db.conversations.any (fun c => c.id == id)

/-- Method `createMessage(id, conversationId, sender, text)`: `INSERT INTO
messages`; `timestamp` is the caller-side `Date.now()`. -/
def createMessage (db : DBState) (id conversationId : String) (sender : Sender)
    (text : String) (now : Nat) : DBState :=
  ⟨db.conversations, db.messages ++ [⟨id, conversationId, sender, text, now⟩]⟩

/-- Rows of the `messages` table for one conversation, in insertion order. -/
def messagesFor (db : DBState) (conversationId : String) : List Message :=
  db.messages.filter (fun m => m.conversationId == conversationId)

/-- Comparison used to model `ORDER BY timestamp ASC` (mergeSort is stable,
so ties stay in rowid order, as the index scan produces them). -/
def tsLe (a b : Message) : Bool :=
  a.timestamp ≤ b.timestamp

/-- Method `getMessages(conversationId)`: `SELECT * ... WHERE conversationId = ?
ORDER BY timestamp ASC`. -/
def getMessages (db : DBState) (conversationId : String) : List Message :=
  (messagesFor db conversationId).mergeSort tsLe

/-- Method `getConversationHistory(conversationId, limit)`: `ORDER BY timestamp
DESC LIMIT ?` (the reverse of the ascending order), then `.reverse()` before
returning. -/
def getConversationHistory (db : DBState) (conversationId : String) (limit : Nat) :
    List Message :=
  (((getMessages db conversationId).reverse).take limit).reverse

/-! ### LLMService.generateReply (src/backend llm service) -/

/-- Outcome of the one external Gemini call a reply attempt makes: either a
completion text (`result.text`, with `undefined` behaving as `""`) or a
thrown error carrying a message. -/
inductive ProviderOutcome where
  | success (text : String)
  | failure (message : String)
deriving DecidableEq, Repr

/-- The catch-block of `generateReply`: classify the error by its message
content and replace it with a fixed user-safe message. -/
def classifyLlmError (msg : String) : String :=
  if containsSub msg "API key" || containsSub msg "API_KEY" then
    "Invalid API key. Please check your Gemini API configuration."
  else if containsSub msg "quota" || containsSub msg "rate limit" then
    "Rate limit reached. Please try again in a moment."
  else if containsSub msg "timeout" then
    "Request timeout. Please try again."
  else
    "Sorry, I encountered an error processing your request. Please try again."

/-- The try-block of `generateReply`: on success, reject empty/whitespace
completions (`throw new Error("Empty response from LLM")`), otherwise return
the trimmed text; a provider failure propagates its message. -/
def generateReplyAttempt (outcome : ProviderOutcome) : Except String String :=
  match outcome with
  | .success text =>
    if jsLength (jsTrim text) == 0 then .error "Empty response from LLM"
    else .ok (jsTrim text)
  | .failure msg => .error msg

/-- Method `LLMService.generateReply(history, userMessage)`.  The prompt built from
`history` and `userMessage` only influences the external call, whose result
is the `outcome` parameter; every error raised inside the try-block (the
provider failure or the empty-completion throw) is classified by the catch
block into one of four fixed user-safe messages. -/
def generateReply (history : List Message) (userMessage : String)
    (outcome : ProviderOutcome) : Except String String :=
  match generateReplyAttempt outcome with
  | .ok r => .ok r
  | .error e => .error (classifyLlmError e)

/-- The four fixed user-safe failure messages of `generateReply`. -/
def llmUserSafeMessages : List String :=
  [ "Invalid API key. Please check your Gemini API configuration.",
    "Rate limit reached. Please try again in a moment.",
    "Request timeout. Please try again.",
    "Sorry, I encountered an error processing your request. Please try again." ]

/-! ### POST /chat/message and GET /chat/history handlers (src/backend/index.ts) -/

/-- Per-request nondeterminism of a chat turn: the `randomUUID()` results,
the `Date.now()` values, and the LLM configuration/outcome (`none` models
`llmService === null`). -/
structure TurnEnv where
  freshSessionId : String
  userMessageId : String
  aiMessageId : String
  convCreatedAt : Nat
  userTimestamp : Nat
  aiTimestamp : Nat
  llm : Option ProviderOutcome
deriving DecidableEq, Repr

/-- Result of `POST /chat/message`. -/
inductive ChatTurnResult where
  | badRequest (error : String)
  | ok (reply : String) (sessionId : String)
deriving DecidableEq, Repr

/-- HTTP status of a chat-turn result. -/
def ChatTurnResult.status : ChatTurnResult → Nat
  | .badRequest _ => 400
  | .ok _ _ => 200

/-- Line `let sessionId = requestSessionId || randomUUID()`: JS `||` takes the
fresh UUID when the validated id is absent (or the falsy empty string, which
validation in fact never produces). -/
def resolveSessionId (req : ChatMessageRequest) (env : TurnEnv) : String :=
  match req.sessionId with
  | some s => if s == "" then env.freshSessionId else s
  | none => env.freshSessionId

/-- The reply text of a turn: the fixed unavailability string when no LLM
service is configured; otherwise the generated reply, with a thrown error
replaced by `error.message || fallback` in the handler catch. -/
def computeAiReply (env : TurnEnv) (history : List Message) (userText : String) :
    String :=
  match env.llm with
  | none => "Sorry, the AI service is currently unavailable."
  | some outcome =>
    match generateReply history userText outcome with
    | .ok r => r
    | .error e =>
      if e == "" then "Sorry, I encountered an error. Please try again." else e

/-- Handler of `POST /chat/message`: validate, resolve/create the session,
persist the user message, obtain a reply, persist the ai message, respond. -/
def chatMessageHandler (db : DBState) (msg sid : JsonField) (env : TurnEnv) :
    DBState × ChatTurnResult :=
  match parseChatBody msg sid with
  | .error e => (db, .badRequest e)
  | .ok req =>
    let sessionId := resolveSessionId req env
    let db1 :=
      if conversationExists db sessionId then db
      else createConversation db sessionId env.convCreatedAt
    let db2 := createMessage db1 env.userMessageId sessionId .user req.message
      env.userTimestamp
    let aiReply := computeAiReply env (getConversationHistory db2 sessionId 10)
      req.message
    let db3 := createMessage db2 env.aiMessageId sessionId .ai aiReply
      env.aiTimestamp
    (db3, .ok aiReply sessionId)

/-- Result of `GET /chat/history/:sessionId`. -/
inductive HistoryResult where
  | badRequest (error : String)
  | notFound (error : String)
  | ok (messages : List Message) (sessionId : String)
deriving DecidableEq, Repr

/-- HTTP status of a history result. -/
def HistoryResult.status : HistoryResult → Nat
  | .badRequest _ => 400
  | .notFound _ => 404
  | .ok _ _ => 200

/-- Handler of `GET /chat/history/:sessionId`. -/
def chatHistoryHandler (db : DBState) (sessionIdParam : String) : HistoryResult :=
  match parseSessionIdParam sessionIdParam with
  | .error e => .badRequest e
  | .ok sessionId =>
    if conversationExists db sessionId then .ok (getMessages db sessionId) sessionId
    else .notFound "Conversation not found"

/-! ### Conversation Store operation sequences (for the append-only invariant) -/

/-- One call to the store API. -/
inductive StoreOp where
  | createConversationOp (id : String) (now : Nat)
  | createMessageOp (id conversationId : String) (sender : Sender) (text : String)
      (now : Nat)
  | conversationExistsOp (id : String)
  | getMessagesOp (conversationId : String)
  | getConversationHistoryOp (conversationId : String) (limit : Nat)
deriving DecidableEq, Repr

/-- Effect of one store call on the database state (reads leave it
unchanged). -/
def applyOp (db : DBState) : StoreOp → DBState
  | .createConversationOp id now => createConversation db id now
  | .createMessageOp id cid s t now => createMessage db id cid s t now
  | .conversationExistsOp _ => db
  | .getMessagesOp _ => db
  | .getConversationHistoryOp _ _ => db

/-- Effect of a sequence of store calls. -/
def applyOps (db : DBState) (ops : List StoreOp) : DBState :=
  ops.foldl applyOp db

/-- Number of `conversations` rows with a given id. -/
def convCount (db : DBState) (id : String) : Nat :=
  (db.conversations.filter (fun c => c.id == id)).length

/-! ### Facts about trimming -/

/-- Unfolding of `jsTrim` through `List.rdropWhile`. -/
theorem jsTrim_toList (s : String) :
    (jsTrim s).toList =
      List.rdropWhile jsWhitespace (s.toList.dropWhile jsWhitespace) := rfl

/-- Dropping leading whitespace from an already left-and-right trimmed list
changes nothing. -/
theorem dropWhile_rdropWhile {α : Type _} (p : α → Bool) (l : List α) :
    (List.rdropWhile p (l.dropWhile p)).dropWhile p
      = List.rdropWhile p (l.dropWhile p) := by
  have hpre := List.rdropWhile_prefix p (l.dropWhile p)
  rcases hB : List.rdropWhile p (l.dropWhile p) with _ | ⟨b, B⟩
  · rfl
  · rw [hB] at hpre
    obtain ⟨t, ht⟩ := hpre
    have hhead : (l.dropWhile p).head? = some b := by
      rw [← ht]; rfl
    have hpb : p b = false := by
      have h0 := List.head?_dropWhile_not p l
      rw [hhead] at h0
      exact h0
    simp [List.dropWhile_cons, hpb]

/-- JS trim is idempotent. -/
theorem jsTrim_idem (s : String) : jsTrim (jsTrim s) = jsTrim s := by
  apply String.ext
  show List.rdropWhile jsWhitespace ((jsTrim s).toList.dropWhile jsWhitespace)
      = (jsTrim s).toList
  rw [jsTrim_toList, dropWhile_rdropWhile, List.rdropWhile_idempotent]

/-- Trimming never lengthens a string. -/
theorem jsTrim_length_le (s : String) : jsLength (jsTrim s) ≤ jsLength s := by
  have h2 : s.toList.dropWhile jsWhitespace <:+ s.toList :=
    List.dropWhile_suffix jsWhitespace
  have h1 := List.rdropWhile_prefix jsWhitespace (s.toList.dropWhile jsWhitespace)
  have h3 := Nat.le_trans h1.length_le h2.length_le
  simpa [jsLength, jsTrim_toList] using h3

/-! ### Facts about validation -/

/-- Characterization of acceptance by the `message` rule chain: the raw
string passes `min(1)`/`max(2000)` and the trimmed string is non-empty. -/
theorem parseMessageField_ok_iff (s : String) :
    (∃ t, parseMessageField (.str s) = .ok t) ↔
      1 ≤ jsLength s ∧ jsLength s ≤ 2000 ∧ 1 ≤ jsLength (jsTrim s) := by
  simp only [parseMessageField]
  split_ifs with h1 h2 h3 <;> simp <;> omega

/-- The value produced by a successful `message` parse is the trimmed
string. -/
theorem parseMessageField_ok_str {s t : String}
    (h : parseMessageField (.str s) = .ok t) : t = jsTrim s := by
  simp only [parseMessageField] at h
  split_ifs at h <;> simp_all

/-- A successful body parse decomposes into both field parses. -/
theorem parseChatBody_ok {msg sid : JsonField} {req : ChatMessageRequest}
    (h : parseChatBody msg sid = .ok req) :
    parseMessageField msg = .ok req.message ∧
    parseSessionIdField sid = .ok req.sessionId := by
  unfold parseChatBody at h
  rcases hm : parseMessageField msg with e | m <;> rw [hm] at h
  · simp at h
  · rcases hs : parseSessionIdField sid with e | o <;> rw [hs] at h
    · simp at h
    · simp only [Except.ok.injEq] at h
      subst h
      exact ⟨rfl, rfl⟩

/-- Both fields parsing makes the body parse succeed. -/
theorem parseChatBody_ok_intro {msg sid : JsonField} {m : String}
    {o : Option String} (hm : parseMessageField msg = .ok m)
    (hs : parseSessionIdField sid = .ok o) :
    parseChatBody msg sid = .ok ⟨m, o⟩ := by
  unfold parseChatBody
  rw [hm, hs]

/-- A failing `message` parse makes the body parse fail with that error. -/
theorem parseChatBody_error_of_message {msg sid : JsonField} {e : String}
    (h : parseMessageField msg = .error e) :
    parseChatBody msg sid = .error e := by
  unfold parseChatBody
  rw [h]

/-- With a malformed `sessionId` the body parse fails whatever the message
field holds. -/
theorem parseChatBody_error_of_bad_sid {msg : JsonField} {s : String}
    (hs : isValidUUID s = false) :
    ∃ e, parseChatBody msg (.str s) = .error e := by
  have hsid : parseSessionIdField (.str s) = .error "Invalid session ID format" := by
    simp only [parseSessionIdField]
    rw [if_neg]
    simp [hs]
  unfold parseChatBody
  rcases hm : parseMessageField msg with e | m
  · exact ⟨e, rfl⟩
  · rw [hsid]
    exact ⟨"Invalid session ID format", rfl⟩

/-! ### Facts about the handlers and the store -/

/-- A body-parse failure short-circuits the chat turn: 400 and no state
change. -/
theorem chatMessageHandler_error {db : DBState} {msg sid : JsonField}
    {env : TurnEnv} {e : String} (h : parseChatBody msg sid = .error e) :
    chatMessageHandler db msg sid env = (db, .badRequest e) := by
  unfold chatMessageHandler
  rw [h]

/-- Shape of a successful chat turn: session resolved, conversation created
if absent, user then ai messages appended, 200 with the reply. -/
theorem chatMessageHandler_ok {db : DBState} {msg sid : JsonField}
    {env : TurnEnv} {req : ChatMessageRequest}
    (h : parseChatBody msg sid = .ok req) :
    chatMessageHandler db msg sid env =
      (let sessionId := resolveSessionId req env
       let db1 := if conversationExists db sessionId then db
         else createConversation db sessionId env.convCreatedAt
       let db2 := createMessage db1 env.userMessageId sessionId .user
         req.message env.userTimestamp
       let reply := computeAiReply env (getConversationHistory db2 sessionId 10)
         req.message
       (createMessage db2 env.aiMessageId sessionId .ai reply env.aiTimestamp,
        ChatTurnResult.ok reply sessionId)) := by
  unfold chatMessageHandler
  rw [h]

/-- The classifier only ever produces the four fixed user-safe messages. -/
theorem classifyLlmError_mem (m : String) :
    classifyLlmError m ∈ llmUserSafeMessages := by
  unfold classifyLlmError
  split_ifs <;> simp [llmUserSafeMessages]

/-- None of the classified messages is empty. -/
theorem classifyLlmError_ne_empty (m : String) : classifyLlmError m ≠ "" := by
  unfold classifyLlmError
  split_ifs <;> decide

/-- A valid UUID is never the empty string (so the JS `||` in session
resolution keeps it). -/
theorem isValidUUID_ne_empty {s : String} (h : isValidUUID s = true) :
    (s == "") = false := by
  rcases hs : (s == "") with _ | _
  · rfl
  · have : s = "" := by simpa using hs
    subst this
    simp [isValidUUID, uuidShapeOk] at h

/-- A valid session id string parses to itself. -/
theorem parseSessionIdField_valid {s : String} (h : isValidUUID s = true) :
    parseSessionIdField (.str s) = .ok (some s) := by
  simp only [parseSessionIdField]
  rw [if_pos h]

/-- Resolution of a validated, supplied session id returns it unchanged. -/
theorem resolveSessionId_supplied {m s : String} {env : TurnEnv}
    (h : isValidUUID s = true) :
    resolveSessionId ⟨m, some s⟩ env = s := by
  simp [resolveSessionId, isValidUUID_ne_empty h]

/-- `getMessages` returns a permutation of the stored rows of the
conversation. -/
theorem getMessages_perm (db : DBState) (cid : String) :
    (getMessages db cid).Perm (messagesFor db cid) :=
  List.mergeSort_perm (messagesFor db cid) tsLe

/-- `getMessages` is sorted by ascending timestamp. -/
theorem getMessages_sorted (db : DBState) (cid : String) :
    List.Pairwise (fun a b => a.timestamp ≤ b.timestamp) (getMessages db cid) := by
  have h := @List.sorted_mergeSort _ tsLe
    (fun a b c hab hbc => by
      simp only [tsLe, decide_eq_true_eq] at hab hbc ⊢
      omega)
    (fun a b => by
      simp only [tsLe, Bool.or_eq_true, decide_eq_true_eq]
      omega)
    (messagesFor db cid)
  refine h.imp ?_
  intro a b hab
  simpa [tsLe] using hab

/-- Existence check agrees with a zero row count. -/
theorem conversationExists_false_iff (db : DBState) (s : String) :
    conversationExists db s = false ↔ convCount db s = 0 := by
  simp [conversationExists, convCount, List.length_eq_zero, List.filter_eq_nil_iff,
    List.any_eq_true]

/-- Row count after `createConversation`. -/
theorem convCount_createConversation (db : DBState) (id s : String) (t : Nat) :
    convCount (createConversation db id t) s =
      convCount db s + (if id = s then 1 else 0) := by
  by_cases h : id = s <;>
    simp [convCount, createConversation, List.filter_append, h]

/-- `createMessage` touches no conversation row. -/
theorem convCount_createMessage (db : DBState) (id cid s : String)
    (sender : Sender) (text : String) (now : Nat) :
    convCount (createMessage db id cid sender text now) s = convCount db s := rfl

/-- One chat turn never pushes the row count of an id above
`max (previous count) 1`. -/
theorem convCount_after_turn (db : DBState) (msg sid : JsonField)
    (env : TurnEnv) (s : String) :
    convCount (chatMessageHandler db msg sid env).1 s
      ≤ max (convCount db s) 1 := by
  rcases hp : parseChatBody msg sid with e | req
  · rw [chatMessageHandler_error hp]
    exact Nat.le_max_left _ _
  · rw [chatMessageHandler_ok hp]
    simp only [convCount_createMessage]
    rcases hex : conversationExists db (resolveSessionId req env) with _ | _
    · rw [if_neg (by simp [hex])]
      rw [convCount_createConversation]
      by_cases hid : resolveSessionId req env = s
      · rw [if_pos hid]
        have h0 : convCount db s = 0 := by
          rw [← hid] at *
          exact (conversationExists_false_iff db _).mp hex
        omega
      · rw [if_neg hid]
        omega
    · rw [if_pos (by simp [hex])]
      exact Nat.le_max_left _ _

/-- One chat turn keeps the row count of an id that already has rows. -/
theorem convCount_after_turn_pos (db : DBState) (msg sid : JsonField)
    (env : TurnEnv) (s : String) (hpos : 0 < convCount db s) :
    convCount (chatMessageHandler db msg sid env).1 s = convCount db s := by
  rcases hp : parseChatBody msg sid with e | req
  · rw [chatMessageHandler_error hp]
  · rw [chatMessageHandler_ok hp]
    simp only [convCount_createMessage]
    rcases hex : conversationExists db (resolveSessionId req env) with _ | _
    · rw [if_neg (by simp [hex])]
      rw [convCount_createConversation]
      by_cases hid : resolveSessionId req env = s
      · rw [← hid] at hpos
        have h0 := (conversationExists_false_iff db _).mp hex
        omega
      · rw [if_neg hid]
        omega
    · rw [if_pos (by simp [hex])]

/-- A turn with a validated message and a valid supplied session id on a
fresh id creates exactly one conversation row for it. -/
theorem convCount_after_turn_fresh (db : DBState) (msg : JsonField)
    (env : TurnEnv) (s m : String) (hm : parseMessageField msg = .ok m)
    (hs : isValidUUID s = true) (h0 : convCount db s = 0) :
    convCount (chatMessageHandler db msg (.str s) env).1 s = 1 := by
  have hp : parseChatBody msg (.str s) = .ok ⟨m, some s⟩ :=
    parseChatBody_ok_intro hm (parseSessionIdField_valid hs)
  rw [chatMessageHandler_ok hp]
  simp only [convCount_createMessage]
  rw [resolveSessionId_supplied hs]
  have hex : conversationExists db s = false :=
    (conversationExists_false_iff db s).mpr h0
  rw [if_neg (by simp [hex])]
  rw [convCount_createConversation]
  simp [h0]

/-- Each store call only appends to the two tables. -/
theorem applyOp_extends (db : DBState) (op : StoreOp) :
    ∃ cs ms, (applyOp db op).conversations = db.conversations ++ cs ∧
      (applyOp db op).messages = db.messages ++ ms := by
  cases op with
  | createConversationOp id now =>
    exact ⟨[⟨id, now⟩], [], rfl, by simp [applyOp, createConversation]⟩
  | createMessageOp id cid s t now =>
    exact ⟨[], [⟨id, cid, s, t, now⟩], by simp [applyOp, createMessage], rfl⟩
  | conversationExistsOp id => exact ⟨[], [], by simp [applyOp], by simp [applyOp]⟩
  | getMessagesOp cid => exact ⟨[], [], by simp [applyOp], by simp [applyOp]⟩
  | getConversationHistoryOp cid limit =>
    exact ⟨[], [], by simp [applyOp], by simp [applyOp]⟩

/-! ### Concrete inputs used in witnesses and counterexamples -/

/-- A message of 2000 letters followed by one space: raw length 2001,
trimmed length 2000. -/
def c1Input : String := ⟨List.replicate 2000 'a' ++ [' ']⟩

/-- A syntactically valid (version 1, variant `a`) UUID string. -/
def uuidA : String := "123e4567-e89b-12d3-a456-426614174000"

/-- A sample environment for concrete turns: fixed fresh UUID, message ids,
timestamps, and no configured LLM service. -/
def envEx : TurnEnv :=
  ⟨"11111111-2222-3333-8444-555555555555", "m-user", "m-ai", 0, 1, 2, none⟩

/-- Equation form of `jsTrim` via `List.rdropWhile`. -/
theorem jsTrim_eq (s : String) :
    jsTrim s = ⟨List.rdropWhile jsWhitespace (s.toList.dropWhile jsWhitespace)⟩ :=
  rfl

/-- Letters are not whitespace. -/
theorem jsWhitespace_a : jsWhitespace 'a' = false := by decide

/-- The space character is whitespace. -/
theorem jsWhitespace_space : jsWhitespace ' ' = true := by decide

/-- Trimming the concrete long input drops exactly the trailing space. -/
theorem jsTrim_c1Input : jsTrim c1Input = ⟨List.replicate 2000 'a'⟩ := by
  rw [jsTrim_eq]
  apply congrArg String.mk
  rw [show c1Input.toList = List.replicate 2000 'a' ++ [' '] from rfl]
  have hdrop : (List.replicate 2000 'a' ++ [' ']).dropWhile jsWhitespace
      = List.replicate 2000 'a' ++ [' '] := by
    rw [List.dropWhile_append]
    simp only [List.dropWhile_replicate, jsWhitespace_a]
    simp only [if_false, Bool.false_eq_true]
    rw [if_neg]
    simp only [List.isEmpty_eq_true]
    intro hnil
    have := congrArg List.length hnil
    simp only [List.length_replicate, List.length_nil] at this
    exact absurd this (by norm_num)
  rw [hdrop]
  rw [List.rdropWhile_concat_pos jsWhitespace (List.replicate 2000 'a') ' '
    jsWhitespace_space]
  simp only [List.rdropWhile, List.reverse_replicate, List.dropWhile_replicate,
    jsWhitespace_a]
  simp only [Bool.false_eq_true, if_false, List.reverse_replicate]

/-- Lengths of the concrete long input and of its trimmed form. -/
theorem c1Input_lengths :
    jsLength c1Input = 2001 ∧ jsLength (jsTrim c1Input) = 2000 := by
  constructor
  · simp only [jsLength]
    rw [show c1Input.toList = List.replicate 2000 'a' ++ [' '] from rfl]
    simp only [List.length_append, List.length_replicate, List.length_cons,
      List.length_nil]
  · rw [jsTrim_c1Input]
    simp only [jsLength]
    rw [show (String.mk (List.replicate 2000 'a')).toList
        = List.replicate 2000 'a' from rfl]
    simp only [List.length_replicate]

/-- Unfolded messages after `createMessage`. -/
theorem createMessage_messages (db : DBState) (id cid : String)
    (sender : Sender) (text : String) (now : Nat) :
    (createMessage db id cid sender text now).messages
      = db.messages ++ [⟨id, cid, sender, text, now⟩] := rfl

/-- Creating a conversation (conditionally) leaves the messages table
unchanged. -/
theorem if_createConversation_messages (db : DBState) (c : Prop) [Decidable c]
    (s : String) (t : Nat) :
    (if c then db else createConversation db s t).messages = db.messages := by
  split <;> rfl

/-- When the configured LLM call fails, the reply the handler uses is the
classified user-safe message (never empty, so the JS `||` keeps it). -/
theorem computeAiReply_failure (env : TurnEnv) (hist : List Message)
    (text raw : String) (h : env.llm = some (.failure raw)) :
    computeAiReply env hist text = classifyLlmError raw := by
  simp only [computeAiReply, h, generateReply, generateReplyAttempt]
  have hne : (classifyLlmError raw == "") = false := by
    simp [classifyLlmError_ne_empty raw]
  simp [hne]

/-- Observable shape of a successful chat turn: a 200 result carrying the
computed reply and resolved session id, with exactly the user and ai rows
appended to the messages table. -/
theorem turn_ok_shape (db : DBState) (msg sid : JsonField) (env : TurnEnv)
    (req : ChatMessageRequest) (h : parseChatBody msg sid = .ok req) :
    ∃ hist,
      (chatMessageHandler db msg sid env).2 =
        ChatTurnResult.ok (computeAiReply env hist req.message)
          (resolveSessionId req env) ∧
      (chatMessageHandler db msg sid env).1.messages =
        db.messages ++
          [⟨env.userMessageId, resolveSessionId req env, Sender.user,
            req.message, env.userTimestamp⟩,
           ⟨env.aiMessageId, resolveSessionId req env, Sender.ai,
            computeAiReply env hist req.message, env.aiTimestamp⟩] := by
  rw [chatMessageHandler_ok h]
  refine ⟨_, rfl, ?_⟩
  rw [createMessage_messages, createMessage_messages,
    if_createConversation_messages, List.append_assoc]
  rfl

/-! ### Claim theorems -/

/-- Claim C1, counterexample: the message of 2000 letters plus one trailing
space has trimmed length 2000 (inside the 1–2000 window the claim says is
accepted), yet the validator rejects it — Zod checks `max(2000)` on the raw
string before `trim` runs — and `POST /chat/message` answers 400. -/
theorem chat_message_validator_counterexample :
    1 ≤ jsLength (jsTrim c1Input) ∧ jsLength (jsTrim c1Input) ≤ 2000 ∧
    parseMessageField (.str c1Input) =
      .error "Message is too long. Please keep it under 2000 characters." ∧
    (chatMessageHandler dbEmpty (.str c1Input) .absent envEx).2.status = 400 := by
  obtain ⟨h1, h2⟩ := c1Input_lengths
  have herr : parseMessageField (.str c1Input) =
      .error "Message is too long. Please keep it under 2000 characters." := by
    simp only [parseMessageField]
    rw [if_neg (by omega), if_pos (by omega)]
  have hbody : parseChatBody (.str c1Input) .absent =
      .error "Message is too long. Please keep it under 2000 characters." :=
    parseChatBody_error_of_message herr
  refine ⟨by omega, by omega, herr, ?_⟩
  rw [chatMessageHandler_error hbody]
  rfl

/-- Claim C1, amended: the validator accepts a payload exactly when its
`message` field is a string whose raw (pre-trim) length is between 1 and
2000 and whose trimmed value is non-empty, normalizing it to the trimmed
string; for every string whose trimmed length is 0 or greater than 2000,
`POST /chat/message` returns 400 and persists nothing. -/
theorem chat_message_validation_characterized (s : String) (sid : JsonField)
    (db : DBState) (env : TurnEnv) :
    ((∃ t, parseMessageField (.str s) = .ok t) ↔
      (1 ≤ jsLength s ∧ jsLength s ≤ 2000 ∧ 1 ≤ jsLength (jsTrim s))) ∧
    (∀ t, parseMessageField (.str s) = .ok t → t = jsTrim s) ∧
    (jsLength (jsTrim s) = 0 ∨ 2000 < jsLength (jsTrim s) →
      (chatMessageHandler db (.str s) sid env).1 = db ∧
      (chatMessageHandler db (.str s) sid env).2.status = 400) := by
  refine ⟨parseMessageField_ok_iff s, fun t ht => parseMessageField_ok_str ht, ?_⟩
  intro hbad
  have hlen := jsTrim_length_le s
  have hnotok : ¬ ∃ t, parseMessageField (.str s) = .ok t := by
    rw [parseMessageField_ok_iff]
    omega
  rcases hres : parseMessageField (.str s) with e | t
  · have herr : parseChatBody (.str s) sid = .error e :=
      parseChatBody_error_of_message hres
    rw [chatMessageHandler_error herr]
    exact ⟨rfl, rfl⟩
  · exact absurd ⟨t, hres⟩ hnotok

/-- Claim C1, witness: a whitespace-only message on the empty database is
rejected with 400 and persists nothing. -/
theorem chat_message_validation_characterized_witness :
    (chatMessageHandler dbEmpty (.str "   ") .absent envEx).1 = dbEmpty ∧
    (chatMessageHandler dbEmpty (.str "   ") .absent envEx).2.status = 400 :=
  (chat_message_validation_characterized "   " .absent dbEmpty envEx).2.2
    (Or.inl (by decide))

/-- Claim C2: once the body validates (so the user message gets persisted),
the turn responds 200 with a reply, the user row is in the final state (never
rolled back), an ai row carrying the reply is persisted, and a Reply
Generator failure is replaced by its classified fallback string. -/
theorem turn_completes_after_user_persisted (db : DBState)
    (msg sid : JsonField) (env : TurnEnv) (req : ChatMessageRequest)
    (h : parseChatBody msg sid = .ok req) :
    ∃ reply sessionId,
      (chatMessageHandler db msg sid env).2 = ChatTurnResult.ok reply sessionId ∧
      (chatMessageHandler db msg sid env).2.status = 200 ∧
      (∃ tail,
        (chatMessageHandler db msg sid env).1.messages =
          db.messages ++
            ⟨env.userMessageId, sessionId, Sender.user, req.message,
              env.userTimestamp⟩ :: tail) ∧
      ⟨env.aiMessageId, sessionId, Sender.ai, reply, env.aiTimestamp⟩ ∈
        (chatMessageHandler db msg sid env).1.messages ∧
      (∀ raw, env.llm = some (ProviderOutcome.failure raw) →
        reply = classifyLlmError raw) := by
  obtain ⟨hist, h2, hmsg⟩ := turn_ok_shape db msg sid env req h
  refine ⟨computeAiReply env hist req.message, resolveSessionId req env, h2,
    ?_, ?_, ?_, ?_⟩
  · rw [h2]
    rfl
  · refine ⟨[⟨env.aiMessageId, resolveSessionId req env, Sender.ai,
      computeAiReply env hist req.message, env.aiTimestamp⟩], ?_⟩
    rw [hmsg]
  · rw [hmsg]
    simp
  · intro raw hraw
    exact computeAiReply_failure env hist req.message raw hraw

/-- Claim C2, witness: a concrete valid turn on the empty database gets a
200 result. -/
theorem turn_completes_after_user_persisted_witness :
    (chatMessageHandler dbEmpty (.str "hello") .absent envEx).2.status = 200 := by
  obtain ⟨r, s, h1, h2, h3⟩ := turn_completes_after_user_persisted dbEmpty
    (.str "hello") .absent envEx ⟨"hello", none⟩ (by decide)
  exact h2

/-- Claim C3: `getConversationHistory` returns at most `limit` messages, is
exactly the last `limit` entries of the full chronological history
`getMessages` (ties included, since both derive from one stable order), and
is itself in ascending timestamp order. -/
theorem history_is_last_n_of_messages (db : DBState) (cid : String) (n : Nat) :
    (getConversationHistory db cid n).length ≤ n ∧
    getConversationHistory db cid n =
      (getMessages db cid).drop ((getMessages db cid).length - n) ∧
    List.Pairwise (fun a b => a.timestamp ≤ b.timestamp)
      (getConversationHistory db cid n) := by
  have hdrop : getConversationHistory db cid n =
      (getMessages db cid).drop ((getMessages db cid).length - n) := by
    have h1 : getConversationHistory db cid n = (getMessages db cid).rtake n := by
      rw [List.rtake_eq_reverse_take_reverse]
      rfl
    rw [h1]
    rfl
  refine ⟨?_, hdrop, ?_⟩
  · simp only [getConversationHistory, List.length_reverse, List.length_take]
    exact Nat.min_le_left _ _
  · rw [hdrop]
    exact List.Pairwise.sublist (List.drop_sublist _ _) (getMessages_sorted db cid)

/-- Claim C4: `generateReply` either succeeds with a trimmed, non-empty,
non-whitespace-only string, or fails with one of the four fixed user-safe
messages obtained by classifying the underlying error content; a provider
failure is always mapped through the classifier, never surfaced raw. -/
theorem generateReply_contract (history : List Message) (userText : String)
    (outcome : ProviderOutcome) :
    (∀ r, generateReply history userText outcome = .ok r →
      r = jsTrim r ∧ 1 ≤ jsLength r) ∧
    (∀ e, generateReply history userText outcome = .error e →
      e ∈ llmUserSafeMessages) ∧
    (∀ raw, outcome = .failure raw →
      generateReply history userText outcome = .error (classifyLlmError raw)) := by
  refine ⟨?_, ?_, ?_⟩
  · intro r hr
    cases outcome with
    | success text =>
      by_cases h0 : jsLength (jsTrim text) = 0
      · have hgen : generateReply history userText (.success text) =
            .error (classifyLlmError "Empty response from LLM") := by
          simp only [generateReply, generateReplyAttempt]
          rw [if_pos (by simpa using h0)]
        rw [hgen] at hr
        exact absurd hr (by simp)
      · have hgen : generateReply history userText (.success text) =
            .ok (jsTrim text) := by
          simp only [generateReply, generateReplyAttempt]
          rw [if_neg (by simpa using h0)]
        rw [hgen] at hr
        simp only [Except.ok.injEq] at hr
        subst hr
        exact ⟨(jsTrim_idem text).symm, by omega⟩
    | failure m =>
      have hgen : generateReply history userText (.failure m) =
          .error (classifyLlmError m) := rfl
      rw [hgen] at hr
      exact absurd hr (by simp)
  · intro e he
    cases outcome with
    | success text =>
      by_cases h0 : jsLength (jsTrim text) = 0
      · have hgen : generateReply history userText (.success text) =
            .error (classifyLlmError "Empty response from LLM") := by
          simp only [generateReply, generateReplyAttempt]
          rw [if_pos (by simpa using h0)]
        rw [hgen] at he
        simp only [Except.error.injEq] at he
        subst he
        exact classifyLlmError_mem _
      · have hgen : generateReply history userText (.success text) =
            .ok (jsTrim text) := by
          simp only [generateReply, generateReplyAttempt]
          rw [if_neg (by simpa using h0)]
        rw [hgen] at he
        exact absurd he (by simp)
    | failure m =>
      have hgen : generateReply history userText (.failure m) =
          .error (classifyLlmError m) := rfl
      rw [hgen] at he
      simp only [Except.error.injEq] at he
      subst he
      exact classifyLlmError_mem _
  · intro raw hraw
    subst hraw
    rfl

/-- Claim C4, witness: a rate-limit style provider failure is replaced by
the fixed rate-limit message. -/
theorem generateReply_contract_witness :
    generateReply [] "hi" (.failure "quota exceeded") =
      .error "Rate limit reached. Please try again in a moment." := by
  have h := (generateReply_contract [] "hi" (.failure "quota exceeded")).2.2
    "quota exceeded" rfl
  rw [h]
  have hc : classifyLlmError "quota exceeded" =
      "Rate limit reached. Please try again in a moment." := by decide
  rw [hc]

/-- Claim C5: with a syntactically valid UUID, the history endpoint answers
404 `Conversation not found` when the conversation does not exist, and
otherwise 200 with exactly the persisted messages of that conversation in
ascending timestamp order. -/
theorem history_endpoint_contract (db : DBState) (s : String)
    (h : isValidUUID s = true) :
    (conversationExists db s = false →
      chatHistoryHandler db s = .notFound "Conversation not found") ∧
    (conversationExists db s = true →
      chatHistoryHandler db s = .ok (getMessages db s) s ∧
      (getMessages db s).Perm (messagesFor db s) ∧
      List.Pairwise (fun a b => a.timestamp ≤ b.timestamp) (getMessages db s)) := by
  have hparse : parseSessionIdParam s = .ok s := by
    unfold parseSessionIdParam
    rw [if_pos h]
  constructor
  · intro hex
    unfold chatHistoryHandler
    rw [hparse]
    simp [hex]
  · intro hex
    refine ⟨?_, getMessages_perm db s, getMessages_sorted db s⟩
    unfold chatHistoryHandler
    rw [hparse]
    simp [hex]

/-- Claim C5, witness: an unused valid UUID yields the 404 result on the
empty database. -/
theorem history_endpoint_contract_witness :
    chatHistoryHandler dbEmpty uuidA = .notFound "Conversation not found" :=
  (history_endpoint_contract dbEmpty uuidA (by decide)).1 (by decide)

/-- Claim C6: two chat turns with the same valid session id never leave more
than `max (initial count) 1` conversation rows for that id; starting from no
row, a first validated turn creates it and the second turn reuses it, ending
with exactly one row. -/
theorem session_creation_idempotent (db : DBState) (m1 m2 : JsonField)
    (s : String) (env1 env2 : TurnEnv) (h : isValidUUID s = true) :
    convCount (chatMessageHandler
        (chatMessageHandler db m1 (.str s) env1).1 m2 (.str s) env2).1 s
      ≤ max (convCount db s) 1 ∧
    (∀ m, parseMessageField m1 = .ok m → convCount db s = 0 →
      convCount (chatMessageHandler
          (chatMessageHandler db m1 (.str s) env1).1 m2 (.str s) env2).1 s = 1) := by
  constructor
  · have h1 := convCount_after_turn db m1 (.str s) env1 s
    have h2 := convCount_after_turn (chatMessageHandler db m1 (.str s) env1).1
      m2 (.str s) env2 s
    omega
  · intro m hm h0
    have h1 := convCount_after_turn_fresh db m1 env1 s m hm h h0
    have h2 := convCount_after_turn_pos (chatMessageHandler db m1 (.str s) env1).1
      m2 (.str s) env2 s (by omega)
    omega

/-- Claim C6, witness: two concrete turns with the same fresh UUID leave one
conversation row. -/
theorem session_creation_idempotent_witness :
    convCount (chatMessageHandler
        (chatMessageHandler dbEmpty (.str "hello") (.str uuidA) envEx).1
        (.str "again") (.str uuidA) envEx).1 uuidA = 1 :=
  (session_creation_idempotent dbEmpty (.str "hello") (.str "again") uuidA
    envEx envEx (by decide)).2 "hello" (by decide) (by decide)

/-- Claim C7: the store is append-only — after any sequence of store calls,
both tables extend the original ones, so every previously persisted row is
still present, in place and unchanged. -/
theorem store_append_only (db : DBState) (ops : List StoreOp) :
    ∃ cs ms, (applyOps db ops).conversations = db.conversations ++ cs ∧
      (applyOps db ops).messages = db.messages ++ ms := by
  induction ops generalizing db with
  | nil => exact ⟨[], [], by simp [applyOps], by simp [applyOps]⟩
  | cons op rest ih =>
    obtain ⟨cs1, ms1, hc1, hm1⟩ := applyOp_extends db op
    obtain ⟨cs2, ms2, hc2, hm2⟩ := ih (applyOp db op)
    have hstep : applyOps db (op :: rest) = applyOps (applyOp db op) rest := rfl
    refine ⟨cs1 ++ cs2, ms1 ++ ms2, ?_, ?_⟩
    · rw [hstep, hc2, hc1, List.append_assoc]
    · rw [hstep, hm2, hm1, List.append_assoc]

/-- Claim C8: a session id that is not a syntactically valid UUID makes
`POST /chat/message` answer 400 with no persistence and no fresh
conversation, and makes `GET /chat/history/:sessionId` answer 400 (so
neither endpoint gives 404 or 500 for it). -/
theorem malformed_session_id_rejected (db : DBState) (s : String)
    (msg : JsonField) (env : TurnEnv) (h : isValidUUID s = false) :
    (chatMessageHandler db msg (.str s) env).1 = db ∧
    (chatMessageHandler db msg (.str s) env).2.status = 400 ∧
    (chatHistoryHandler db s).status = 400 := by
  obtain ⟨e, he⟩ := parseChatBody_error_of_bad_sid h
  rw [chatMessageHandler_error he]
  refine ⟨rfl, rfl, ?_⟩
  unfold chatHistoryHandler parseSessionIdParam
  rw [if_neg (by simp [h])]
  rfl

/-- Claim C8, witness: a concrete malformed id gets 400 on both endpoints
and leaves the empty database untouched. -/
theorem malformed_session_id_rejected_witness :
    (chatMessageHandler dbEmpty (.str "hi") (.str "not-a-uuid") envEx).1 = dbEmpty ∧
    (chatMessageHandler dbEmpty (.str "hi") (.str "not-a-uuid") envEx).2.status = 400 ∧
    (chatHistoryHandler dbEmpty "not-a-uuid").status = 400 :=
  malformed_session_id_rejected dbEmpty "not-a-uuid" (.str "hi") envEx (by decide)

/-- Claim C9: on every successful turn the persisted `user` row carries the
validated (trimmed) inbound message, and the persisted `ai` row carries
exactly the string returned as `reply` in the 200 response. -/
theorem persisted_texts_match_response (db : DBState) (msg sid : JsonField)
    (env : TurnEnv) (req : ChatMessageRequest)
    (h : parseChatBody msg sid = .ok req) :
    ∃ reply sessionId,
      (chatMessageHandler db msg sid env).2 = ChatTurnResult.ok reply sessionId ∧
      (chatMessageHandler db msg sid env).1.messages =
        db.messages ++
          [⟨env.userMessageId, sessionId, Sender.user, req.message,
            env.userTimestamp⟩,
           ⟨env.aiMessageId, sessionId, Sender.ai, reply, env.aiTimestamp⟩] ∧
      (∀ s, msg = .str s → req.message = jsTrim s) := by
  obtain ⟨hist, h2, hmsg⟩ := turn_ok_shape db msg sid env req h
  refine ⟨computeAiReply env hist req.message, resolveSessionId req env, h2,
    hmsg, ?_⟩
  intro s hs
  subst hs
  exact parseMessageField_ok_str (parseChatBody_ok h).1

/-- Claim C9, witness: on a concrete turn the stored rows are exactly the
trimmed user text and the replied ai text. -/
theorem persisted_texts_match_response_witness :
    ∃ reply sessionId,
      (chatMessageHandler dbEmpty (.str " hello ") .absent envEx).2 =
        ChatTurnResult.ok reply sessionId ∧
      (chatMessageHandler dbEmpty (.str " hello ") .absent envEx).1.messages =
        dbEmpty.messages ++
          [⟨envEx.userMessageId, sessionId, Sender.user, "hello",
            envEx.userTimestamp⟩,
           ⟨envEx.aiMessageId, sessionId, Sender.ai, reply,
            envEx.aiTimestamp⟩] := by
  obtain ⟨reply, sessionId, h1, h2, h3⟩ := persisted_texts_match_response
    dbEmpty (.str " hello ") .absent envEx ⟨"hello", none⟩ (by decide)
  exact ⟨reply, sessionId, h1, h2⟩

/-- Claim C10: when the request supplies a syntactically valid session id
the 200 response echoes it verbatim; when the request omits it, the response
carries the freshly generated server UUID. -/
theorem response_echoes_session_id (db : DBState) (s : String)
    (msg : JsonField) (env : TurnEnv) (m : String)
    (hm : parseMessageField msg = .ok m) (hs : isValidUUID s = true) :
    (∃ reply, (chatMessageHandler db msg (.str s) env).2 =
      ChatTurnResult.ok reply s) ∧
    (∃ reply, (chatMessageHandler db msg .absent env).2 =
      ChatTurnResult.ok reply env.freshSessionId) := by
  constructor
  · have hp : parseChatBody msg (.str s) = .ok ⟨m, some s⟩ :=
      parseChatBody_ok_intro hm (parseSessionIdField_valid hs)
    obtain ⟨hist, h2, hmsg⟩ := turn_ok_shape db msg (.str s) env ⟨m, some s⟩ hp
    rw [resolveSessionId_supplied hs] at h2
    exact ⟨_, h2⟩
  · have hp : parseChatBody msg .absent = .ok ⟨m, none⟩ :=
      parseChatBody_ok_intro hm rfl
    obtain ⟨hist, h2, hmsg⟩ := turn_ok_shape db msg .absent env ⟨m, none⟩ hp
    have hres : resolveSessionId ⟨m, none⟩ env = env.freshSessionId := rfl
    rw [hres] at h2
    exact ⟨_, h2⟩

/-- Claim C10, witness: a concrete supplied valid UUID is echoed verbatim in
the 200 response. -/
theorem response_echoes_session_id_witness :
    ∃ reply, (chatMessageHandler dbEmpty (.str "hello") (.str uuidA) envEx).2 =
      ChatTurnResult.ok reply uuidA :=
  (response_echoes_session_id dbEmpty uuidA (.str "hello") envEx "hello"
    (by decide) (by decide)).1
